import Mathlib

set_option maxRecDepth 8000

/-!
Shallow embedding of `improved_db.py` (class `ImprovedDb`, a small PyMySQL
connection pool).

Modelling conventions:
* A connection is identified by a natural number; `PoolState.nextId` is the id
  the driver would hand out next.
* The outcome of `pymysql.connect(**self.db_config)` is a fixed property of the
  state (`factoryErr`): `none` means the driver connects successfully, `some e`
  means every `pymysql.connect` call raises `e`.  `factoryCalls` counts the
  `pymysql.connect` invocations (instrumentation for the replenishment claims).
* `queue.Queue(maxsize)` is modelled sequentially: `get(timeout=..)` succeeds
  immediately iff the queue is non-empty (in a single-threaded run nobody else
  can add an element while we wait, so an empty queue means the timeout
  expires), `put_nowait` raises `Full` iff the queue holds `maxsize` elements,
  and a blocking `put` on a full queue never returns (modelled as `none`).
* Python exceptions are modelled with `Except`; functions that mutate the pool
  return the final state alongside the result, because in Python the `ImprovedDb`
  object survives an exception raised by one of its methods.
* Calls to the `logging` module are recorded in `PoolState.logs` as strings
  prefixed with the requested level (the configured logger level only filters
  emission, not the calls themselves).
* `Connection.close()` is recorded in `PoolState.closed`; nothing else closes a
  connection.
-/

/-- Error classes raised by the PyMySQL driver, as distinguished by the source:
the four statement-class errors caught by `execute_query_multiplex`, plus
representatives of the remaining classes. -/
inductive PyErr where
  | programmingError
  | internalError
  | integrityError
  | notSupportedError
  | operationalError
  | interfaceError
  | otherError
deriving DecidableEq, Repr

/-- Predicate for the exception tuple `(pymysql.err.ProgrammingError,
pymysql.err.InternalError, pymysql.err.IntegrityError,
pymysql.err.NotSupportedError)` of `execute_query_multiplex`. -/
def isStatementClassErr : PyErr → Bool
  | PyErr.programmingError => true
  | PyErr.internalError => true
  | PyErr.integrityError => true
  | PyErr.notSupportedError => true
  | _ => false

/-- The constant `self.POOL_HARD_LIMIT = 100` set in `ImprovedDb.__init__`. -/
def POOL_HARD_LIMIT : Nat := 100

/-- State of one `ImprovedDb` instance with `pool=True`: the bounded queue
`self.pool` (front of the list = front of the FIFO queue), the driver model
(`nextId`, `factoryErr`, `factoryCalls`), the set of closed connections and the
log calls made so far. -/
structure PoolState where
  store : List Nat
  nextId : Nat
  factoryErr : Option PyErr
  factoryCalls : Nat
  closed : List Nat
  logs : List String
deriving DecidableEq, Repr

/-- Models `ImprovedDb.__init__(db_config, pool=True, pool_init_size=..)`:
an empty `queue.Queue(self.POOL_HARD_LIMIT)` and a fresh driver model.
(`pool_init_size` is only stored for `create_pool`, so it is passed to
`create_pool` directly here.) -/
def improvedDbInit (factoryErr : Option PyErr) : PoolState :=
  { store := [], nextId := 0, factoryErr := factoryErr, factoryCalls := 0,
    closed := [], logs := [] }

/-- Result of `ImprovedDb.connect`: a connection object, or a cursor object
(tuple cursor or `DictCursor`) when `cursor=True`. -/
inductive ConnectResult where
  | conn (id : Nat)
  | cursorOn (id : Nat) (dict : Bool)
deriving DecidableEq, Repr

/-- Models `ImprovedDb.connect(cursor, dictcursor, recreate)`: call
`pymysql.connect(**self.db_config)`; on success optionally log (when
`recreate`) and return the connection or a cursor on it; on failure log an
error (whose text depends on `recreate`) and re-raise. -/
def connect (s : PoolState) (cursor dictcursor recreate : Bool) :
    Except PyErr ConnectResult × PoolState :=
  match s.factoryErr with
  | none =>
      let connId := s.nextId
      let s1 := { s with nextId := s.nextId + 1, factoryCalls := s.factoryCalls + 1 }
      let s2 :=
        if recreate then
          { s1 with logs := s1.logs ++
              ["info: create new connection because of pool lacking",
               "debug: create new connection because of pool lacking"] }
        else s1
      if cursor then
        (Except.ok (ConnectResult.cursorOn connId dictcursor), s2)
      else
        (Except.ok (ConnectResult.conn connId), s2)
  | some e =>
      let s1 := { s with factoryCalls := s.factoryCalls + 1 }
      let s2 := { s1 with logs := s1.logs ++
          [if recreate then "error: recreate connection error when pool lacking"
           else "error: create connection error"] }
      (Except.error e, s2)

/-- Extracts the connection id from a `ConnectResult` (total, since both
constructors carry the underlying connection id). -/
def ConnectResult.connId : ConnectResult → Nat
  | ConnectResult.conn i => i
  | ConnectResult.cursorOn i _ => i

/-- Models `ImprovedDb.pool_put_connection(connection, conn_type)`: log at
debug level, then `self.pool.put_nowait(connection)`; a `queue.Full` exception
(queue already holds `POOL_HARD_LIMIT` items) is caught and only logged, the
connection is neither stored nor closed.  No exception escapes to the caller. -/
def pool_put_connection (s : PoolState) (connId : Nat) (conn_type : String) :
    PoolState :=
  let s1 := { s with logs := s.logs ++ ["debug: return connection"] }
  if s1.store.length < POOL_HARD_LIMIT then
    { s1 with store := s1.store ++ [connId] }
  else
    { s1 with logs := s1.logs ++
        [if conn_type = "new" then "warning: cant put new connection to pool"
         else "warning: cant put old connection back to pool"] }

/-- Models `ImprovedDb.pool_get_connection(timeout, retry_num)`:
`self.pool.get(timeout=timeout)` returns the front connection when the queue is
non-empty; on `queue.Empty` (sequential model: the queue is empty, so the
timeout expires) a new connection is created via `self.connect(recreate=True)`
(errors propagate, mutating only the driver instrumentation and the logs),
offered to the pool with `conn_type='new'`, and if `retry_num > 0` the method
recurses with `retry_num - 1`; otherwise control falls off the end of the
function and Python returns `None` (here `Except.ok none`). -/
def pool_get_connection (s : PoolState) (timeout : Nat) (retry_num : Nat) :
    Except PyErr (Option Nat) × PoolState :=
  match s.store with
  | conn :: rest =>
      (Except.ok (some conn),
        { s with store := rest, logs := s.logs ++ ["debug: get connection"] })
  | [] =>
      let s1 := { s with logs := s.logs ++ ["warning: get connection from pool timeout"] }
      match connect s1 false false true with
      | (Except.error e, s2) => (Except.error e, s2)
      | (Except.ok r, s2) =>
          let s3 := pool_put_connection s2 r.connId "new"
          match retry_num with
          | Nat.succ k =>
              let s4 := { s3 with logs := s3.logs ++ ["warning: retry get connection from pool"] }
              pool_get_connection s4 timeout k
          | 0 => (Except.ok none, s3)

/-- Models `ImprovedDb.create_pool()` run with a given `pool_init_size` `n`:
repeat `n` times `conn = self.connect(); self.pool.put(conn)`.  A `connect`
failure aborts the fill and propagates (`some (Except.error e)`); `self.pool.put`
is a blocking put, so if the queue is already full it never returns, modelled
as `none` (non-termination). -/
def create_pool (s : PoolState) (n : Nat) : Option (Except PyErr PoolState) :=
  match n with
  | 0 => some (Except.ok s)
  | Nat.succ k =>
      match connect s false false false with
      | (Except.error e, _) => some (Except.error e)
      | (Except.ok r, s1) =>
          if s1.store.length < POOL_HARD_LIMIT then
            create_pool { s1 with store := s1.store ++ [r.connId] } k
          else
            none

/-- Models `ImprovedDb.db_close(connection)`: `connection.close()` plus a
debug log. -/
def db_close (s : PoolState) (connId : Nat) : PoolState :=
  { s with closed := s.closed ++ [connId],
           logs := s.logs ++ ["debug: close connection"] }

/-- Result shape produced by the last line of `execute_query` /
`execute_query_multiplex`: `(res[0] if res else None) if return_one else res`.
`noRow` is Python `None`, `oneRow r` is `res[0]`, `rows rs` is the tuple of all
fetched rows. -/
inductive QueryRes (α : Type) where
  | noRow : QueryRes α
  | oneRow : α → QueryRes α
  | rows : List α → QueryRes α
deriving DecidableEq, Repr

/-- Shapes the fetched row list exactly as the source line
`(res[0] if res else None) if return_one else res` (an empty tuple is falsy in
Python). -/
def shapeResult {α : Type} (res : List α) (return_one : Bool) : QueryRes α :=
  if return_one then
    match res with
    | [] => QueryRes.noRow
    | r :: _ => QueryRes.oneRow r
  else QueryRes.rows res

/-- Models the static method `ImprovedDb.execute_query`: open a cursor (tuple
or dict, per `dictcursor`), run `cur.executemany(query, args)` when
`exec_many` else `cur.execute(query, args)` — any exception is re-raised
unchanged — then `res = cur.fetchall()` and shape per `return_one`.  The
driver behaviour is the pair `execOutcome`/`execManyOutcome`: the rows the
chosen call would produce, or the exception it would raise.  The `with` block
only scopes the cursor; the connection is untouched. -/
def execute_query {α : Type} (execOutcome execManyOutcome : Except PyErr (List α))
    (dictcursor return_one exec_many : Bool) : Except PyErr (QueryRes α) :=
  match (if exec_many then execManyOutcome else execOutcome) with
  | Except.error e => Except.error e
  | Except.ok res => Except.ok (shapeResult res return_one)

/-- Models `ImprovedDb.execute_query_multiplex(connection, ..)`: like
`execute_query`, but on one of the four statement-class errors it runs
`cur.close(); self.pool_put_connection(connection); raise`, on any other
exception it just re-raises, and on success it returns the connection to the
pool (`self.pool_put_connection(connection)`) before shaping the result.
`connId` is the borrowed connection. -/
def execute_query_multiplex {α : Type} (s : PoolState) (connId : Nat)
    (execOutcome execManyOutcome : Except PyErr (List α))
    (dictcursor return_one exec_many : Bool) :
    Except PyErr (QueryRes α) × PoolState :=
  match (if exec_many then execManyOutcome else execOutcome) with
  | Except.error e =>
      if isStatementClassErr e then
        (Except.error e, pool_put_connection s connId "old")
      else
        (Except.error e, s)
  | Except.ok res =>
      let s1 := pool_put_connection s connId "old"
      (Except.ok (shapeResult res return_one), s1)

/-- One pool operation by some caller: acquire (`pool_get_connection`) or
release (`pool_put_connection`). -/
inductive PoolOp where
  | acquire (timeout retry_num : Nat)
  | release (connId : Nat) (conn_type : String)
deriving DecidableEq, Repr

/-- Applies one pool operation to the state (an acquire keeps the resulting
state whether it returns a connection, returns `None`, or raises). -/
def applyOp (s : PoolState) : PoolOp → PoolState
  | PoolOp.acquire t r => (pool_get_connection s t r).2
  | PoolOp.release c ty => pool_put_connection s c ty

/-- Runs a sequence of acquire/release operations from a starting state. -/
def runOps (s : PoolState) (ops : List PoolOp) : PoolState :=
  ops.foldl applyOp s

/-! Helper lemmas about the pool operations. -/

/-- Returning a connection to the pool never calls `Connection.close()`. -/
lemma pool_put_connection_closed (s : PoolState) (c : Nat) (ty : String) :
    (pool_put_connection s c ty).closed = s.closed := by
  simp only [pool_put_connection]
  split <;> rfl

/-- Returning a connection to the pool preserves the capacity bound. -/
lemma pool_put_store_le (s : PoolState) (c : Nat) (ty : String)
    (h : s.store.length ≤ POOL_HARD_LIMIT) :
    (pool_put_connection s c ty).store.length ≤ POOL_HARD_LIMIT := by
  simp only [pool_put_connection]
  split_ifs with hlt h2
  · have hlt' : s.store.length < 100 := hlt
    show (s.store ++ [c]).length ≤ 100
    simp only [List.length_append, List.length_cons, List.length_nil]
    omega
  · exact h
  · exact h

/-- Acquiring a connection (with any retry budget) preserves the capacity
bound on the pool store. -/
lemma pool_get_store_le : ∀ (r : Nat) (s : PoolState) (t : Nat),
    s.store.length ≤ POOL_HARD_LIMIT →
    ((pool_get_connection s t r).2).store.length ≤ POOL_HARD_LIMIT := by
  intro r
  induction r with
  | zero =>
      intro s t h
      obtain ⟨st, nid, fe, fc, cl, lg⟩ := s
      cases st with
      | cons c rest =>
          simp only [pool_get_connection]
          simp at h ⊢
          omega
      | nil =>
          cases fe with
          | some e =>
              show ([] : List Nat).length ≤ POOL_HARD_LIMIT
              simp [POOL_HARD_LIMIT]
          | none =>
              show ([nid] : List Nat).length ≤ POOL_HARD_LIMIT
              simp [POOL_HARD_LIMIT]
  | succ k ih =>
      intro s t h
      obtain ⟨st, nid, fe, fc, cl, lg⟩ := s
      cases st with
      | cons c rest =>
          simp only [pool_get_connection]
          simp at h ⊢
          omega
      | nil =>
          cases fe with
          | some e =>
              show ([] : List Nat).length ≤ POOL_HARD_LIMIT
              simp [POOL_HARD_LIMIT]
          | none =>
              exact ih ⟨[nid], nid + 1, none, fc + 1, cl,
                lg ++ ["warning: get connection from pool timeout"] ++
                  ["info: create new connection because of pool lacking",
                   "debug: create new connection because of pool lacking"] ++
                  ["debug: return connection"] ++
                  ["warning: retry get connection from pool"]⟩ t
                (by simp [POOL_HARD_LIMIT])

/-- A completed initial fill leaves the store within the capacity bound. -/
lemma create_pool_store_le : ∀ (n : Nat) (s s' : PoolState),
    create_pool s n = some (Except.ok s') →
    s.store.length ≤ POOL_HARD_LIMIT → s'.store.length ≤ POOL_HARD_LIMIT := by
  intro n
  induction n with
  | zero =>
      intro s s' h hle
      simp [create_pool] at h
      exact h ▸ hle
  | succ k ih =>
      intro s s' h hle
      obtain ⟨st, nid, fe, fc, cl, lg⟩ := s
      cases fe with
      | some e => simp [create_pool, connect] at h
      | none =>
          simp only [create_pool, connect, ConnectResult.connId] at h
          simp at h
          obtain ⟨hlt, h2⟩ := h
          refine ih _ s' h2 ?_
          have hlt' : st.length < 100 := hlt
          show (st ++ [nid]).length ≤ 100
          simp only [List.length_append, List.length_cons, List.length_nil]
          omega

/-- Any sequence of acquire/release operations preserves the capacity bound. -/
lemma runOps_store_le : ∀ (ops : List PoolOp) (s : PoolState),
    s.store.length ≤ POOL_HARD_LIMIT →
    (runOps s ops).store.length ≤ POOL_HARD_LIMIT := by
  intro ops
  induction ops with
  | nil =>
      intro s h
      simpa [runOps] using h
  | cons op rest ih =>
      intro s h
      have hstep : (applyOp s op).store.length ≤ POOL_HARD_LIMIT := by
        cases op with
        | acquire t r => exact pool_get_store_le r s t h
        | release c ty => exact pool_put_store_le s c ty h
      simpa [runOps, List.foldl] using ih (applyOp s op) hstep

/-! Claim theorems. -/

/-- C3: for every sequence of acquire (`pool_get_connection`) and release
(`pool_put_connection`) operations starting from a pool whose initial fill
(`create_pool` with any `pool_init_size`) completed, the pool store never
holds more than `POOL_HARD_LIMIT` (100) connections.  (For `pool_init_size`
exceeding the capacity the blocking `pool.put` in `create_pool` never returns,
so no acquire/release sequence ever runs: `create_pool` yields `none`.) -/
theorem pool_store_capacity_invariant (fe : Option PyErr) (n : Nat)
    (s0 : PoolState) (ops : List PoolOp)
    (hinit : create_pool (improvedDbInit fe) n = some (Except.ok s0)) :
    (runOps s0 ops).store.length ≤ POOL_HARD_LIMIT := by
  have h0 : s0.store.length ≤ POOL_HARD_LIMIT :=
    create_pool_store_le n (improvedDbInit fe) s0 hinit (by simp [improvedDbInit])
  exact runOps_store_le ops s0 h0

/-- Witness for C3 at a concrete pool of initial size 1 and a concrete
acquire/release sequence. -/
theorem pool_store_capacity_invariant_witness :
    (runOps
        { store := [0], nextId := 1, factoryErr := none, factoryCalls := 1,
          closed := [], logs := [] }
        [PoolOp.acquire 3 1, PoolOp.release 0 "old"]).store.length ≤
      POOL_HARD_LIMIT :=
  pool_store_capacity_invariant none 1
    { store := [0], nextId := 1, factoryErr := none, factoryCalls := 1,
      closed := [], logs := [] }
    [PoolOp.acquire 3 1, PoolOp.release 0 "old"] rfl

/-- C4: with an empty pool store and a working factory,
`pool_get_connection(timeout, retry_num=1)` terminates successfully with a
connection (the freshly created replenishment connection), and
`pymysql.connect` is invoked exactly once during the acquisition. -/
theorem acquire_empty_pool_one_retry (s : PoolState) (t : Nat)
    (hs : s.store = []) (hf : s.factoryErr = none) :
    (pool_get_connection s t 1).1 = Except.ok (some s.nextId) ∧
    (pool_get_connection s t 1).2.factoryCalls = s.factoryCalls + 1 ∧
    (pool_get_connection s t 1).2.store = [] := by
  obtain ⟨st, nid, fe, fc, cl, lg⟩ := s
  obtain rfl : st = [] := hs
  obtain rfl : fe = none := hf
  exact ⟨rfl, rfl, rfl⟩

/-- Witness for C4 on a freshly initialized (empty) pool with a working
factory. -/
theorem acquire_empty_pool_one_retry_witness :
    (pool_get_connection (improvedDbInit none) 3 1).1 = Except.ok (some 0) ∧
    (pool_get_connection (improvedDbInit none) 3 1).2.factoryCalls = 1 ∧
    (pool_get_connection (improvedDbInit none) 3 1).2.store = [] :=
  acquire_empty_pool_one_retry (improvedDbInit none) 3 rfl rfl

/-- C5: when the pool store is empty (the `get` timeout expires) and the
factory raises during the replenishment attempt, the error propagates
immediately out of `pool_get_connection` for any retry budget, and the factory
is attempted exactly once (no further retry). -/
theorem factory_error_propagates (s : PoolState) (t r : Nat) (e : PyErr)
    (hs : s.store = []) (hf : s.factoryErr = some e) :
    (pool_get_connection s t r).1 = Except.error e ∧
    (pool_get_connection s t r).2.factoryCalls = s.factoryCalls + 1 := by
  obtain ⟨st, nid, fe, fc, cl, lg⟩ := s
  obtain rfl : st = [] := hs
  obtain rfl : fe = some e := hf
  cases r with
  | zero => exact ⟨rfl, rfl⟩
  | succ k => exact ⟨rfl, rfl⟩

/-- Witness for C5 on an empty pool whose driver raises an operational error. -/
theorem factory_error_propagates_witness :
    (pool_get_connection (improvedDbInit (some PyErr.operationalError)) 3 2).1 =
      Except.error PyErr.operationalError ∧
    (pool_get_connection (improvedDbInit (some PyErr.operationalError)) 3 2).2.factoryCalls
      = 1 :=
  factory_error_propagates (improvedDbInit (some PyErr.operationalError)) 3 2
    PyErr.operationalError rfl rfl

/-- C6: when the pool store is empty and the retry budget is exhausted
(`retry_num = 0` after the replenishment step), `pool_get_connection` returns
the exhaustion signal — Python's `None`, modelled as `Option.none` — rather
than raising or returning a connection. -/
theorem retries_exhausted_returns_none (s : PoolState) (t : Nat)
    (hs : s.store = []) (hf : s.factoryErr = none) :
    (pool_get_connection s t 0).1 = Except.ok none := by
  obtain ⟨st, nid, fe, fc, cl, lg⟩ := s
  obtain rfl : st = [] := hs
  obtain rfl : fe = none := hf
  rfl

/-- Witness for C6 on a freshly initialized (empty) pool. -/
theorem retries_exhausted_returns_none_witness :
    (pool_get_connection (improvedDbInit none) 3 0).1 = Except.ok none :=
  retries_exhausted_returns_none (improvedDbInit none) 3 rfl rfl

/-- C10: an exhausted acquisition (empty pool, retry budget used up, working
factory) still mutates the pool store: the freshly created replenishment
connection has been inserted (the empty store is below capacity), even though
the caller receives no connection. -/
theorem exhausted_acquire_mutates_store (s : PoolState) (t : Nat)
    (hs : s.store = []) (hf : s.factoryErr = none) :
    (pool_get_connection s t 0).1 = Except.ok none ∧
    (pool_get_connection s t 0).2.store = [s.nextId] := by
  obtain ⟨st, nid, fe, fc, cl, lg⟩ := s
  obtain rfl : st = [] := hs
  obtain rfl : fe = none := hf
  exact ⟨rfl, rfl⟩

/-- Witness for C10 on a freshly initialized (empty) pool. -/
theorem exhausted_acquire_mutates_store_witness :
    (pool_get_connection (improvedDbInit none) 5 0).1 = Except.ok none ∧
    (pool_get_connection (improvedDbInit none) 5 0).2.store = [0] :=
  exhausted_acquire_mutates_store (improvedDbInit none) 5 rfl rfl

/-- C1 counterexample: with an empty pool store, running a malformed statement
(`ProgrammingError`) through `execute_query_multiplex` leaves the borrowed
connection RE-INSERTED in the pool store and NOT closed (only the error is
re-raised unchanged), contradicting the claim that the connection is closed
and not re-inserted. -/
theorem multiplex_statement_error_discard_cex :
    (execute_query_multiplex (improvedDbInit none) 7
        (Except.error PyErr.programmingError) (Except.ok ([] : List Nat))
        false false false).2.store = [7] ∧
    (execute_query_multiplex (improvedDbInit none) 7
        (Except.error PyErr.programmingError) (Except.ok ([] : List Nat))
        false false false).2.closed = [] ∧
    (execute_query_multiplex (improvedDbInit none) 7
        (Except.error PyErr.programmingError) (Except.ok ([] : List Nat))
        false false false).1 = Except.error PyErr.programmingError :=
  ⟨rfl, rfl, rfl⟩

/-- C1 (amended): when `execute_query_multiplex` hits a statement-class error
(`ProgrammingError`, `InternalError`, `IntegrityError`, `NotSupportedError`),
the cursor is closed and the borrowed connection is handed back to the pool via
`pool_put_connection` (re-inserted when the store is below `POOL_HARD_LIMIT`,
silently dropped otherwise) — it is never closed — and the original error is
re-raised unchanged to the caller. -/
theorem multiplex_statement_error_returns_conn {α : Type} (s : PoolState)
    (connId : Nat) (execOutcome execManyOutcome : Except PyErr (List α))
    (dc ro em : Bool) (e : PyErr)
    (hout : (if em then execManyOutcome else execOutcome) = Except.error e)
    (hcls : isStatementClassErr e = true) :
    execute_query_multiplex s connId execOutcome execManyOutcome dc ro em =
      (Except.error e, pool_put_connection s connId "old") ∧
    (execute_query_multiplex s connId execOutcome execManyOutcome dc ro em).2.closed
      = s.closed := by
  have hmain :
      execute_query_multiplex s connId execOutcome execManyOutcome dc ro em =
        (Except.error e, pool_put_connection s connId "old") := by
    simp [execute_query_multiplex, hout, hcls]
  refine ⟨hmain, ?_⟩
  rw [hmain]
  exact pool_put_connection_closed s connId "old"

/-- Witness for the amended C1 on a concrete state and an integrity error. -/
theorem multiplex_statement_error_returns_conn_witness :
    execute_query_multiplex (improvedDbInit none) 9
        (Except.error PyErr.integrityError) (Except.ok ([] : List Nat))
        false false false =
      (Except.error PyErr.integrityError,
        pool_put_connection (improvedDbInit none) 9 "old") ∧
    (execute_query_multiplex (improvedDbInit none) 9
        (Except.error PyErr.integrityError) (Except.ok ([] : List Nat))
        false false false).2.closed = (improvedDbInit none).closed :=
  multiplex_statement_error_returns_conn (improvedDbInit none) 9
    (Except.error PyErr.integrityError) (Except.ok ([] : List Nat))
    false false false PyErr.integrityError rfl rfl

/-- C2 counterexample: releasing connection 555 into a pool store already
holding `POOL_HARD_LIMIT` connections leaves the store unchanged but does NOT
close the connection (the `queue.Full` handler only logs a warning),
contradicting the claim that the connection is closed. -/
theorem put_full_pool_close_cex :
    (pool_put_connection
        { store := List.range 100, nextId := 100, factoryErr := none,
          factoryCalls := 100, closed := [], logs := [] } 555 "old").closed = [] ∧
    (pool_put_connection
        { store := List.range 100, nextId := 100, factoryErr := none,
          factoryCalls := 100, closed := [], logs := [] } 555 "old").store =
      List.range 100 :=
  ⟨rfl, rfl⟩

/-- C2 (amended): releasing a connection when the pool store already holds
`POOL_HARD_LIMIT` connections leaves the store unchanged and surfaces no error
to the caller (the function is total and only logs a warning), but the
connection is NOT closed — it is silently dropped. -/
theorem put_full_pool_drops_without_close (s : PoolState) (c : Nat) (ty : String)
    (h : s.store.length = POOL_HARD_LIMIT) :
    (pool_put_connection s c ty).store = s.store ∧
    (pool_put_connection s c ty).closed = s.closed := by
  constructor
  · simp only [pool_put_connection]
    split_ifs with hlt h2
    · have hlt' : s.store.length < POOL_HARD_LIMIT := hlt
      rw [h] at hlt'
      exact absurd hlt' (lt_irrefl _)
    · rfl
    · rfl
  · exact pool_put_connection_closed s c ty

/-- Witness for the amended C2 on a concrete full pool store. -/
theorem put_full_pool_drops_without_close_witness :
    (pool_put_connection
        { store := List.range 100, nextId := 100, factoryErr := none,
          factoryCalls := 100, closed := [7], logs := [] } 611 "new").store =
      List.range 100 ∧
    (pool_put_connection
        { store := List.range 100, nextId := 100, factoryErr := none,
          factoryCalls := 100, closed := [7], logs := [] } 611 "new").closed =
      [7] :=
  put_full_pool_drops_without_close
    { store := List.range 100, nextId := 100, factoryErr := none,
      factoryCalls := 100, closed := [7], logs := [] } 611 "new"
    (by simp [POOL_HARD_LIMIT])

/-- C7: `execute_query` with `return_one=True` yields the explicit no-row
value (Python `None`, here `QueryRes.noRow`) when the driver returns zero rows
— not an empty sequence and not an error — and yields exactly the first row in
driver-returned order when the driver returns one or more rows. -/
theorem execute_query_return_one_shape {α : Type} (r : α) (rest : List α)
    (dc em : Bool) :
    execute_query (Except.ok ([] : List α)) (Except.ok ([] : List α)) dc true em =
      Except.ok QueryRes.noRow ∧
    execute_query (Except.ok (r :: rest)) (Except.ok (r :: rest)) dc true em =
      Except.ok (QueryRes.oneRow r) := by
  cases em with
  | false => exact ⟨rfl, rfl⟩
  | true => exact ⟨rfl, rfl⟩

/-- C9: `execute_query` with `return_one=False` on a zero-row driver result
yields the empty row sequence `()` (here `QueryRes.rows []`), which is a
distinct value from the no-row sentinel `None` (`QueryRes.noRow`), and is not
an error. -/
theorem execute_query_all_rows_empty_tuple {α : Type} (dc em : Bool) :
    execute_query (Except.ok ([] : List α)) (Except.ok ([] : List α)) dc false em =
      Except.ok (QueryRes.rows []) ∧
    QueryRes.rows ([] : List α) ≠ QueryRes.noRow := by
  cases em with
  | false => exact ⟨rfl, fun h => QueryRes.noConfusion h⟩
  | true => exact ⟨rfl, fun h => QueryRes.noConfusion h⟩

/-- C8: `connect` invoked with `recreate=True` returns the same value and the
same driver/pool state (store, driver model, factory-call count, closed set)
as `connect` with `recreate=False`, and raises if and only if the other
raises: the flag only changes the recorded log messages. -/
theorem connect_recreate_flag_only_logging (s : PoolState) (cu dc : Bool) :
    (connect s cu dc true).1 = (connect s cu dc false).1 ∧
    (connect s cu dc true).2.store = (connect s cu dc false).2.store ∧
    (connect s cu dc true).2.nextId = (connect s cu dc false).2.nextId ∧
    (connect s cu dc true).2.factoryErr = (connect s cu dc false).2.factoryErr ∧
    (connect s cu dc true).2.factoryCalls = (connect s cu dc false).2.factoryCalls ∧
    (connect s cu dc true).2.closed = (connect s cu dc false).2.closed := by
  obtain ⟨st, nid, fe, fc, cl, lg⟩ := s
  cases fe with
  | none =>
      cases cu with
      | false => exact ⟨rfl, rfl, rfl, rfl, rfl, rfl⟩
      | true => exact ⟨rfl, rfl, rfl, rfl, rfl, rfl⟩
  | some e =>
      cases cu with
      | false => exact ⟨rfl, rfl, rfl, rfl, rfl, rfl⟩
      | true => exact ⟨rfl, rfl, rfl, rfl, rfl, rfl⟩
